import Mathlib

/-!
Shallow embedding of the fit-component / caching-fit-runner core of the
`rx_calibration` repository (modules `mc_fitter.py` and `fit_component.py`),
together with theorems settling the specification claims about it.

Numeric values carried by fit parameters are modelled as rationals: the code
treats them as opaque payloads (it only copies them around), so the proofs do
not depend on the arithmetic of the carrier type.
-/

deriving instance DecidableEq for Except

namespace RxCalib

/-- A live model (zfit) parameter: name, current value, floating flag.
The model engine is an external collaborator; the core only reads and writes
parameter values and floating flags by name. -/
structure Param where
  name     : String
  value    : Rat
  floating : Bool
deriving DecidableEq, Repr

/-- Modelled from the spec: the `Parameter` class (ParameterSet) of
`rx_calibration.hltcalibration.parameter` is not among the provided sources;
the spec describes it as a named mapping from parameter name to a pair
(value, uncertainty), with unique names, serializable so that a write-then-read
round trip reproduces the exact set.  Embedded as an association list. -/
abbrev Parameter := List (String × Rat × Rat)

/-- Modelled from the spec: `name in parameter_set` / `parameter_set[name]`,
the mapping access on a ParameterSet. -/
def Parameter.lookupPar (ps : Parameter) (n : String) : Option (Rat × Rat) :=
  ps.lookup n

/-- A fit result as returned by the external minimizer plus Hessian step:
per-parameter (name, value, hesse error).  The minimizer is an opaque external
service, so the result it would produce is an oracle input to the embedding. -/
abbrev FitResult := List (String × Rat × Rat)

/-- Embedding of the `_res_to_par` loop body: copy each (value, hesse error) pair of the frozen
result into a fresh ParameterSet, in order. -/
def resToParams (res : FitResult) : Parameter :=
  res.map (fun t => (t.fst, t.snd.fst, t.snd.snd))

/-- A ROOT dataframe, as far as the core uses it (external collaborator,
contract: column existence check, constant-column definition, columnar
extraction): a number of entries and named columns. -/
structure RDataFrame where
  nrows : Nat
  cols  : List (String × List Rat)
deriving DecidableEq, Repr

/-- Column names, as returned by `rdf.GetColumnNames()`. -/
def RDataFrame.colNames (r : RDataFrame) : List String :=
  r.cols.map Prod.fst

/-- Columnar extraction of one column (`rdf.AsNumpy`). -/
def RDataFrame.getCol (r : RDataFrame) (n : String) : Option (List Rat) :=
  r.cols.lookup n

/-- Embedding of `rdf.Define(name, const)`: add a constant-valued column, one entry per row. -/
def RDataFrame.defineConst (r : RDataFrame) (n : String) (v : Rat) : RDataFrame :=
  ⟨r.nrows, r.cols ++ [(n, List.replicate r.nrows v)]⟩

/-- Well-formedness of a dataframe: every column has one entry per row. -/
def RDataFrame.wf (r : RDataFrame) : Prop :=
  ∀ n l, r.getCol n = some l → l.length = r.nrows

/-- The weighted dataset handed to the NLL (`zfit.Data.from_numpy`):
observable array and per-event weights. -/
structure ZData where
  arr : List Rat
  wgt : List Rat
deriving DecidableEq, Repr

/-- Python exceptions raised by the embedded code. -/
inductive PyError
  | valueError (msg : String)
  | notImplementedError (msg : String)
  | keyError (key : String)
  | attributeError (attr : String)
deriving DecidableEq, Repr

/-- Observable side effects of a run, in order of occurrence. -/
inductive Event
  | logWgtFound
  | logWgtDefined
  | buildData
  | minimize
  | hesse
  | logNoPlot
  | mkdirOut
  | plotRender (path : String)
  | cacheWrite (path : String)
  | cacheRead (path : String)
deriving DecidableEq, Repr

/-- Modelled from the spec: the persisted ParameterSet records
(`Parameter.to_json` / `Parameter.from_json`, in the absent `parameter.py`):
a file system mapping paths to serialized ParameterSets, where the
write-then-read round trip reproduces the exact set. -/
abbrev FS := List (String × Parameter)

/-- Existence check `os.path.isfile` on a record path. -/
def fsIsFile (fs : FS) (path : String) : Bool :=
  (fs.lookup path).isSome

/-- Embedding of `par.to_json(path)`: the most recent write at a path wins. -/
def fsWrite (fs : FS) (path : String) (par : Parameter) : FS :=
  (path, par) :: fs

/-- The `fitting` sub-configuration. -/
structure FitCfg where
  error_method   : String
  weights_column : String
deriving DecidableEq, Repr

/-- The `plotting` sub-configuration, as far as the core reads it:
`FitComponent._plot_fit` extracts (and deletes) the `plot_dir` key; every
other key is forwarded opaquely to the renderer. -/
structure PltCfg where
  plot_dir : Option String
deriving DecidableEq, Repr

/-- The PDF handed to a component, as far as the core uses it: the observable
name (`pdf.obs`) and the live parameter list (`pdf.get_params()`). -/
structure PDF where
  obs_name : String
  params   : List Param
deriving DecidableEq, Repr

/-- The configuration mapping passed to `__init__`: each key optional,
since the code distinguishes present and absent keys. -/
structure CfgDict where
  name     : Option String
  out_dir  : Option String
  fitting  : Option FitCfg
  plotting : Option PltCfg
deriving DecidableEq, Repr

/-- Embedding of `_add_weights` (identical in `MCFitter` and `FitComponent`, up to the
constant being written `1.0` resp. `1`): if the weight column exists, return
the dataframe unmodified; otherwise define it as a constant column of ones. -/
def addWeights (rdf : RDataFrame) (wgtName : String) : RDataFrame × List Event :=
  if wgtName ∈ rdf.colNames then
    (rdf, [Event.logWgtFound])
  else
    (rdf.defineConst wgtName 1, [Event.logWgtDefined])

/-- Embedding of `_get_data` (identical in both classes): add weights, extract the
observable and weight columns, build the weighted dataset. -/
def getData (fitCfg : Option FitCfg) (obsName : String) (rdf : RDataFrame) :
    Except PyError ZData × List Event :=
  match fitCfg with
  | none => (Except.error (PyError.valueError "Cannot find fit configuration"), [])
  | some f =>
    let (wrdf, evs) := addWeights rdf f.weights_column
    match wrdf.getCol obsName, wrdf.getCol f.weights_column with
    | some o, some w => (Except.ok ⟨o, w⟩, evs ++ [Event.buildData])
    | _, _ => (Except.error (PyError.keyError obsName), evs)

/-- Embedding of `_res_to_par` (identical in both classes): reject any error method other
than `minuit_hesse`; otherwise run hesse, freeze, and copy the result into a
ParameterSet. -/
def resToPar (fitCfg : Option FitCfg) (res : FitResult) :
    Except PyError Parameter × List Event :=
  match fitCfg with
  | none => (Except.error (PyError.valueError "Cannot find fit configuration"), [])
  | some f =>
    if f.error_method = "minuit_hesse" then
      (Except.ok (resToParams res), [Event.hesse])
    else
      (Except.error (PyError.notImplementedError
        ("Method " ++ f.error_method ++ " not implemented, only minuit_hesse allowed")), [])

/-- Embedding of `_fit` (identical in both classes): build the NLL, run the minimizer, then
convert the result.  The minimizer invocation happens before `_res_to_par` is
entered, so the `minimize` event precedes any rejection raised there. -/
def fitData (fitCfg : Option FitCfg) (res : FitResult) :
    Except PyError Parameter × List Event :=
  let (r, evs) := resToPar fitCfg res
  (r, Event.minimize :: evs)

/-- Embedding of the Python string method `endswith`, used for the reserved
`_flt` suffix convention: a character-level suffix test. -/
def strEndsWith (s suffix : String) : Bool :=
  suffix.data.isSuffixOf s.data

/-- Embedding of the `MCFitter._fix_tails` body for one live parameter: skip parameters absent
from the fitted set, skip names ending in `_flt`, otherwise set the value to
the fitted value and fix the parameter. -/
def mcFixOne (sigPar : Parameter) (p : Param) : Param :=
  match sigPar.lookupPar p.name with
  | none => p
  | some (v, _) =>
    if strEndsWith p.name "_flt" then p
    else { p with value := v, floating := false }

/-- Embedding of the `FitComponent._fix_tails` body for one live parameter: same matching rules,
but the floating flag is set to `True`. -/
def fcFixOne (sigPar : Parameter) (p : Param) : Param :=
  match sigPar.lookupPar p.name with
  | none => p
  | some (v, _) =>
    if strEndsWith p.name "_flt" then p
    else { p with value := v, floating := true }

namespace MCFitter

/-- The `MCFitter` object state after a successful `__init__`.  `out_dir` is
`none` exactly when the attribute was never assigned (no fitting
sub-configuration); reading it then is an `AttributeError`. -/
structure State where
  name    : String
  fit_cfg : Option FitCfg
  plt_cfg : Option PltCfg
  out_dir : Option String
  rdf     : Option RDataFrame
  pdf     : PDF
deriving DecidableEq, Repr

/-- Embedding of `MCFitter.__init__`: read `cfg['name']`, take the optional `fitting` and
`plotting` sections, and read `cfg['out_dir']` whenever `fitting` is present
(a missing key raises `KeyError`). -/
def init (cfg : CfgDict) (rdf : Option RDataFrame) (pdf : PDF) :
    Except PyError State :=
  match cfg.name with
  | none => Except.error (PyError.keyError "name")
  | some nm =>
    match cfg.fitting with
    | some f =>
      match cfg.out_dir with
      | none => Except.error (PyError.keyError "out_dir")
      | some d => Except.ok ⟨nm, some f, cfg.plotting, some d, rdf, pdf⟩
    | none => Except.ok ⟨nm, none, cfg.plotting, none, rdf, pdf⟩

/-- Embedding of `MCFitter._fix_tails` over the model's live parameter list. -/
def fixTails (sigPar : Parameter) (ps : List Param) : List Param :=
  ps.map (mcFixOne sigPar)

/-- Effects of `MCFitter._plot_fit`: skipped with a warning when no plotting
configuration exists; otherwise create the output directory and save the
overlay to `out_dir/name.png`. -/
def plotFit (m : State) (odir : String) : List Event :=
  match m.plt_cfg with
  | none => [Event.logNoPlot]
  | some _ => [Event.mkdirOut, Event.plotRender (odir ++ "/" ++ m.name ++ ".png")]

/-- What `run()` hands back: the pass-through branch returns the PDF itself,
the fitting branches return the ParameterSet. -/
inductive RunRes
  | passThrough (pdf : List Param)
  | fitted (par : Parameter)
deriving DecidableEq, Repr

/-- Full outcome of `run()`: emitted events, final file system, final model
parameter state, and the returned value or raised exception. -/
structure RunOut where
  events : List Event
  fs     : FS
  pdf    : List Param
  result : Except PyError RunRes
deriving DecidableEq, Repr

/-- Embedding of `MCFitter.run`: pass through without a fitting configuration; fail on a
missing dataframe; otherwise branch on existence of the record at
`out_dir/name.json` — fresh: build data, fit, plot, persist; cached: load the
record; in both fitting branches finish by fixing the tails. -/
def run (m : State) (fs : FS) (res : FitResult) : RunOut :=
  match m.fit_cfg with
  | none => ⟨[], fs, m.pdf.params, Except.ok (RunRes.passThrough m.pdf.params)⟩
  | some _ =>
    match m.rdf with
    | none => ⟨[], fs, m.pdf.params, Except.error (PyError.valueError "Dataframe not found")⟩
    | some rdf =>
      match m.out_dir with
      | none => ⟨[], fs, m.pdf.params, Except.error (PyError.attributeError "_out_dir")⟩
      | some odir =>
        let parsPath := odir ++ "/" ++ m.name ++ ".json"
        match fs.lookup parsPath with
        | none =>
          match getData m.fit_cfg m.pdf.obs_name rdf with
          | (Except.error e, evs) => ⟨evs, fs, m.pdf.params, Except.error e⟩
          | (Except.ok _, evs) =>
            match fitData m.fit_cfg res with
            | (Except.error e, evs2) => ⟨evs ++ evs2, fs, m.pdf.params, Except.error e⟩
            | (Except.ok par, evs2) =>
              ⟨evs ++ evs2 ++ plotFit m odir ++ [Event.cacheWrite parsPath],
               fsWrite fs parsPath par,
               fixTails par m.pdf.params,
               Except.ok (RunRes.fitted par)⟩
        | some par =>
          ⟨[Event.cacheRead parsPath], fs,
           fixTails par m.pdf.params,
           Except.ok (RunRes.fitted par)⟩

end MCFitter

namespace FitComponent

/-- The `FitComponent` object state after `__init__` (which reads no
`out_dir`; the plot directory lives inside the plotting configuration). -/
structure State where
  name    : String
  fit_cfg : Option FitCfg
  plt_cfg : Option PltCfg
  rdf     : Option RDataFrame
  pdf     : PDF
deriving DecidableEq, Repr

/-- Embedding of `FitComponent._fix_tails` over the model's live parameter list. -/
def fixTails (sigPar : Parameter) (ps : List Param) : List Param :=
  ps.map (fcFixOne sigPar)

/-- Full outcome of `get_pdf()`: emitted events, final model parameter state,
the plotting configuration after its one-shot `plot_dir` consumption, and the
returned PDF parameters or raised exception. -/
structure GetPdfOut where
  events : List Event
  pdf    : List Param
  plt    : Option PltCfg
  result : Except PyError (List Param)
deriving DecidableEq, Repr

/-- Embedding of `FitComponent.get_pdf`: pass through without a fitting configuration; fail
on a missing dataframe; otherwise build data, fit, fix tails, then plot
(consuming `plot_dir` from the plotting configuration), and return the PDF. -/
def getPdf (c : State) (res : FitResult) : GetPdfOut :=
  match c.fit_cfg with
  | none => ⟨[], c.pdf.params, c.plt_cfg, Except.ok c.pdf.params⟩
  | some _ =>
    match c.rdf with
    | none => ⟨[], c.pdf.params, c.plt_cfg, Except.error (PyError.valueError "Dataframe not found")⟩
    | some rdf =>
      match getData c.fit_cfg c.pdf.obs_name rdf with
      | (Except.error e, evs) => ⟨evs, c.pdf.params, c.plt_cfg, Except.error e⟩
      | (Except.ok _, evs) =>
        match fitData c.fit_cfg res with
        | (Except.error e, evs2) => ⟨evs ++ evs2, c.pdf.params, c.plt_cfg, Except.error e⟩
        | (Except.ok par, evs2) =>
          let pdf2 := fixTails par c.pdf.params
          match c.plt_cfg with
          | none => ⟨evs ++ evs2 ++ [Event.logNoPlot], pdf2, c.plt_cfg, Except.ok pdf2⟩
          | some pc =>
            match pc.plot_dir with
            | none => ⟨evs ++ evs2, pdf2, c.plt_cfg, Except.error (PyError.keyError "plot_dir")⟩
            | some d =>
              ⟨evs ++ evs2 ++ [Event.mkdirOut, Event.plotRender (d ++ "/" ++ c.name ++ ".png")],
               pdf2, some ⟨none⟩, Except.ok pdf2⟩

end FitComponent

end RxCalib

/-! ### Concrete fixtures used by witness theorems -/

/-- A small dataframe with an observable column and no weight column. -/
def rdf0 : RxCalib.RDataFrame := ⟨3, [("mass", [1, 2, 3])]⟩

/-- A small dataframe that already carries a weight column. -/
def rdf1 : RxCalib.RDataFrame := ⟨2, [("mass", [4, 5]), ("weights", [1, 1])]⟩

/-- A toy signal PDF: a shape parameter and a floating-by-design mean. -/
def pdf0 : RxCalib.PDF :=
  ⟨"mass", [⟨"sg", 1, true⟩, ⟨"mu_flt", 5300, true⟩]⟩

/-- A fitting sub-configuration with the supported error method. -/
def fitcfgOK : RxCalib.FitCfg := ⟨"minuit_hesse", "weights"⟩

/-- A fitting sub-configuration requesting the unsupported bootstrap method. -/
def fitcfgBad : RxCalib.FitCfg := ⟨"bootstrap", "weights"⟩

/-- An oracle fit result for the toy PDF. -/
def res0 : RxCalib.FitResult := [("sg", 10, 1), ("mu_flt", 5299, 2)]

/-- A cached ParameterSet fixture. -/
def parC : RxCalib.Parameter := [("sg", 7, 1)]


/-- The weighted dataset that the data builder extracts from `rdf0`. -/
def d0 : RxCalib.ZData := ⟨[1, 2, 3], [1, 1, 1]⟩

/-- The events the data builder emits on `rdf0`. -/
def evs0 : List RxCalib.Event := [RxCalib.Event.logWgtDefined, RxCalib.Event.buildData]

/-- A fully configured runner over `rdf0`. -/
def mOK : RxCalib.MCFitter.State := ⟨"sig", some fitcfgOK, none, some "out", some rdf0, pdf0⟩

/-- A runner requesting the unsupported bootstrap error method. -/
def mBad : RxCalib.MCFitter.State := ⟨"sig", some fitcfgBad, none, some "out", some rdf0, pdf0⟩

/-- A runner with a fitting configuration but no dataframe. -/
def mMiss : RxCalib.MCFitter.State := ⟨"sig", some fitcfgOK, none, some "out", none, pdf0⟩

/-- A component with a fitting configuration but no dataframe. -/
def cMiss : RxCalib.FitComponent.State := ⟨"sig", some fitcfgOK, none, none, pdf0⟩

/-- A component requesting the unsupported bootstrap error method. -/
def cBad : RxCalib.FitComponent.State := ⟨"sig", some fitcfgBad, none, some rdf0, pdf0⟩

/-- A runner with no fitting configuration. -/
def mPass : RxCalib.MCFitter.State := ⟨"sig", none, none, none, some rdf0, pdf0⟩

/-- A component with no fitting configuration. -/
def cPass : RxCalib.FitComponent.State := ⟨"sig", none, none, some rdf0, pdf0⟩

/-- A fully configured component over `rdf0`. -/
def cOK : RxCalib.FitComponent.State := ⟨"sig", some fitcfgOK, none, some rdf0, pdf0⟩

/-- A cache holding a record at the canonical path of `mOK`. -/
def fsC : RxCalib.FS := [("out/sig.json", parC)]

/-- A configuration with a name and a fitting section but no out_dir key. -/
def cfgNoOut : RxCalib.CfgDict := ⟨some "sig", none, some fitcfgOK, none⟩

/-- A configuration with a name only. -/
def cfgNoFit : RxCalib.CfgDict := ⟨some "sig", none, none, none⟩

/-! ### Helper lemmas -/


namespace RxCalib

lemma lookup_none_of_not_mem_keys {β : Type} (w : String) (l : List (String × β))
    (h : w ∉ l.map Prod.fst) : l.lookup w = none := by
  induction l with
  | nil => rfl
  | cons c t ih =>
    rcases c with ⟨k, b⟩
    simp only [List.map_cons, List.mem_cons] at h
    push_neg at h
    have hk : (w == k) = false := beq_eq_false_iff_ne.mpr h.1
    simp [List.lookup, hk, ih h.2]

lemma lookup_append_of_none {β : Type} (l1 l2 : List (String × β)) (w : String)
    (h : l1.lookup w = none) : (l1 ++ l2).lookup w = l2.lookup w := by
  induction l1 with
  | nil => simp
  | cons c t ih =>
    rcases c with ⟨k, b⟩
    cases hk : w == k with
    | true => simp [List.lookup, hk] at h
    | false =>
      simp only [List.lookup, hk] at h
      simp only [List.cons_append, List.lookup, hk]
      exact ih h

lemma lookup_append_of_some {β : Type} (l1 l2 : List (String × β)) (w : String) (v : β)
    (h : l1.lookup w = some v) : (l1 ++ l2).lookup w = some v := by
  induction l1 with
  | nil => simp [List.lookup] at h
  | cons c t ih =>
    rcases c with ⟨k, b⟩
    cases hk : w == k with
    | true =>
      simp only [List.lookup, hk] at h
      simp only [List.cons_append, List.lookup, hk]
      exact h
    | false =>
      simp only [List.lookup, hk] at h
      simp only [List.cons_append, List.lookup, hk]
      exact ih h

end RxCalib

namespace RxCalib

lemma mcFixOne_name (sig : Parameter) (p : Param) : (mcFixOne sig p).name = p.name := by
  unfold mcFixOne
  rcases h : sig.lookupPar p.name with _ | ⟨v, e⟩
  · rfl
  · by_cases hf : strEndsWith p.name "_flt" <;> simp [hf]

lemma fcFixOne_name (sig : Parameter) (p : Param) : (fcFixOne sig p).name = p.name := by
  unfold fcFixOne
  rcases h : sig.lookupPar p.name with _ | ⟨v, e⟩
  · rfl
  · by_cases hf : strEndsWith p.name "_flt" <;> simp [hf]

lemma mcFixOne_idem (sig : Parameter) (p : Param) :
    mcFixOne sig (mcFixOne sig p) = mcFixOne sig p := by
  unfold mcFixOne
  rcases h : sig.lookupPar p.name with _ | ⟨v, e⟩
  · simp [h]
  · by_cases hf : strEndsWith p.name "_flt"
    · simp [h, hf]
    · simp [h, hf]

lemma fcFixOne_idem (sig : Parameter) (p : Param) :
    fcFixOne sig (fcFixOne sig p) = fcFixOne sig p := by
  unfold fcFixOne
  rcases h : sig.lookupPar p.name with _ | ⟨v, e⟩
  · simp [h]
  · by_cases hf : strEndsWith p.name "_flt"
    · simp [h, hf]
    · simp [h, hf]

end RxCalib


namespace RxCalib

lemma getData_ok_buildData (f : FitCfg) (obs : String) (r : RDataFrame)
    (d : ZData) (evs : List Event)
    (h : getData (some f) obs r = (Except.ok d, evs)) :
    Event.buildData ∈ evs := by
  simp only [getData] at h
  rcases haw : addWeights r f.weights_column with ⟨wrdf, evs2⟩
  rw [haw] at h
  rcases ho : wrdf.getCol obs with _ | o <;>
    rcases hw : wrdf.getCol f.weights_column with _ | w <;>
      simp only [ho, hw] at h
  · exact absurd (congrArg Prod.fst h) (by simp)
  · exact absurd (congrArg Prod.fst h) (by simp)
  · exact absurd (congrArg Prod.fst h) (by simp)
  · have he : evs2 ++ [Event.buildData] = evs := congrArg Prod.snd h
    rw [← he]
    simp

lemma run_pass (m : MCFitter.State) (fs : FS) (res : FitResult)
    (h : m.fit_cfg = none) :
    MCFitter.run m fs res =
      ⟨[], fs, m.pdf.params, Except.ok (MCFitter.RunRes.passThrough m.pdf.params)⟩ := by
  simp only [MCFitter.run, h]

lemma run_nodata (m : MCFitter.State) (fs : FS) (res : FitResult) (f : FitCfg)
    (h1 : m.fit_cfg = some f) (h2 : m.rdf = none) :
    MCFitter.run m fs res =
      ⟨[], fs, m.pdf.params, Except.error (PyError.valueError "Dataframe not found")⟩ := by
  simp only [MCFitter.run, h1, h2]

lemma run_cached (m : MCFitter.State) (fs : FS) (res : FitResult) (f : FitCfg)
    (r : RDataFrame) (odir : String) (par : Parameter)
    (h1 : m.fit_cfg = some f) (h2 : m.rdf = some r) (h3 : m.out_dir = some odir)
    (h4 : fs.lookup (odir ++ "/" ++ m.name ++ ".json") = some par) :
    MCFitter.run m fs res =
      ⟨[Event.cacheRead (odir ++ "/" ++ m.name ++ ".json")], fs,
       MCFitter.fixTails par m.pdf.params,
       Except.ok (MCFitter.RunRes.fitted par)⟩ := by
  simp only [MCFitter.run, h1, h2, h3, h4]

lemma run_fresh_ok (m : MCFitter.State) (fs : FS) (res : FitResult) (f : FitCfg)
    (r : RDataFrame) (odir : String) (d : ZData) (evs : List Event)
    (h1 : m.fit_cfg = some f) (h2 : m.rdf = some r) (h3 : m.out_dir = some odir)
    (h4 : fs.lookup (odir ++ "/" ++ m.name ++ ".json") = none)
    (h5 : getData (some f) m.pdf.obs_name r = (Except.ok d, evs))
    (h6 : f.error_method = "minuit_hesse") :
    MCFitter.run m fs res =
      ⟨evs ++ [Event.minimize, Event.hesse] ++ MCFitter.plotFit m odir ++
         [Event.cacheWrite (odir ++ "/" ++ m.name ++ ".json")],
       fsWrite fs (odir ++ "/" ++ m.name ++ ".json") (resToParams res),
       MCFitter.fixTails (resToParams res) m.pdf.params,
       Except.ok (MCFitter.RunRes.fitted (resToParams res))⟩ := by
  simp only [MCFitter.run, h1, h2, h3, h4, h5, fitData, resToPar, h6, if_true,
    List.cons_append, List.nil_append]

lemma run_fresh_bad (m : MCFitter.State) (fs : FS) (res : FitResult) (f : FitCfg)
    (r : RDataFrame) (odir : String) (d : ZData) (evs : List Event)
    (h1 : m.fit_cfg = some f) (h2 : m.rdf = some r) (h3 : m.out_dir = some odir)
    (h4 : fs.lookup (odir ++ "/" ++ m.name ++ ".json") = none)
    (h5 : getData (some f) m.pdf.obs_name r = (Except.ok d, evs))
    (h6 : ¬ f.error_method = "minuit_hesse") :
    MCFitter.run m fs res =
      ⟨evs ++ [Event.minimize], fs, m.pdf.params,
       Except.error (PyError.notImplementedError
         ("Method " ++ f.error_method ++ " not implemented, only minuit_hesse allowed"))⟩ := by
  simp only [MCFitter.run, h1, h2, h3, h4, h5, fitData, resToPar, if_neg h6]

lemma getPdf_pass (c : FitComponent.State) (res : FitResult)
    (h : c.fit_cfg = none) :
    FitComponent.getPdf c res =
      ⟨[], c.pdf.params, c.plt_cfg, Except.ok c.pdf.params⟩ := by
  simp only [FitComponent.getPdf, h]

lemma getPdf_nodata (c : FitComponent.State) (res : FitResult) (f : FitCfg)
    (h1 : c.fit_cfg = some f) (h2 : c.rdf = none) :
    FitComponent.getPdf c res =
      ⟨[], c.pdf.params, c.plt_cfg,
       Except.error (PyError.valueError "Dataframe not found")⟩ := by
  simp only [FitComponent.getPdf, h1, h2]

lemma getPdf_fit_ok (c : FitComponent.State) (res : FitResult) (f : FitCfg)
    (r : RDataFrame) (d : ZData) (evs : List Event)
    (h1 : c.fit_cfg = some f) (h2 : c.rdf = some r)
    (h5 : getData (some f) c.pdf.obs_name r = (Except.ok d, evs))
    (h6 : f.error_method = "minuit_hesse") :
    (FitComponent.getPdf c res).pdf =
      FitComponent.fixTails (resToParams res) c.pdf.params ∧
    Event.minimize ∈ (FitComponent.getPdf c res).events := by
  simp only [FitComponent.getPdf, h1, h2, h5, fitData, resToPar, h6, if_true]
  rcases hp : c.plt_cfg with _ | pc
  · simp
  · rcases hd : pc.plot_dir with _ | dir <;> simp [hd]

lemma getPdf_fit_bad (c : FitComponent.State) (res : FitResult) (f : FitCfg)
    (r : RDataFrame) (d : ZData) (evs : List Event)
    (h1 : c.fit_cfg = some f) (h2 : c.rdf = some r)
    (h5 : getData (some f) c.pdf.obs_name r = (Except.ok d, evs))
    (h6 : ¬ f.error_method = "minuit_hesse") :
    FitComponent.getPdf c res =
      ⟨evs ++ [Event.minimize], c.pdf.params, c.plt_cfg,
       Except.error (PyError.notImplementedError
         ("Method " ++ f.error_method ++ " not implemented, only minuit_hesse allowed"))⟩ := by
  simp only [FitComponent.getPdf, h1, h2, h5, fitData, resToPar, if_neg h6]

end RxCalib

/-! ### Claim theorems -/

/-- C5: a model parameter whose name ends with the reserved `_flt` suffix is
never fixed and never has its value changed by the tail-fixing policy, in both
its freezing (`MCFitter._fix_tails`) and its releasing
(`FitComponent._fix_tails`) variant, whatever the fitted ParameterSet holds. -/
theorem flt_suffix_exempt (sig : RxCalib.Parameter) (p : RxCalib.Param)
    (h : RxCalib.strEndsWith p.name "_flt" = true) :
    RxCalib.mcFixOne sig p = p ∧ RxCalib.fcFixOne sig p = p := by
  constructor
  · unfold RxCalib.mcFixOne
    rcases hl : sig.lookupPar p.name with _ | ⟨v, e⟩
    · rfl
    · simp [h]
  · unfold RxCalib.fcFixOne
    rcases hl : sig.lookupPar p.name with _ | ⟨v, e⟩
    · rfl
    · simp [h]

/-- Witness for C5 at a concrete parameter carrying the reserved suffix. -/
theorem flt_suffix_exempt_witness :
    RxCalib.mcFixOne parC ⟨"mu_flt", 2, true⟩ = ⟨"mu_flt", 2, true⟩ ∧
    RxCalib.fcFixOne parC ⟨"mu_flt", 2, true⟩ = ⟨"mu_flt", 2, true⟩ :=
  flt_suffix_exempt parC ⟨"mu_flt", 2, true⟩ (by decide)

/-- C6: the tail-fixing policy is idempotent — applying `_fix_tails` twice with
the same fitted ParameterSet leaves every model parameter identical to applying
it once, for both the `MCFitter` and the `FitComponent` variant. -/
theorem fix_tails_idempotent (sig : RxCalib.Parameter) (ps : List RxCalib.Param) :
    RxCalib.MCFitter.fixTails sig (RxCalib.MCFitter.fixTails sig ps) =
      RxCalib.MCFitter.fixTails sig ps ∧
    RxCalib.FitComponent.fixTails sig (RxCalib.FitComponent.fixTails sig ps) =
      RxCalib.FitComponent.fixTails sig ps := by
  constructor
  · unfold RxCalib.MCFitter.fixTails
    rw [List.map_map]
    exact List.map_congr_left (fun p _ => RxCalib.mcFixOne_idem sig p)
  · unfold RxCalib.FitComponent.fixTails
    rw [List.map_map]
    exact List.map_congr_left (fun p _ => RxCalib.fcFixOne_idem sig p)

namespace RxCalib

lemma run_result_fitted_pdf (m : MCFitter.State) (fs : FS) (res : FitResult)
    (f : FitCfg) (r : RDataFrame) (par : Parameter)
    (h1 : m.fit_cfg = some f) (h2 : m.rdf = some r)
    (hres : (MCFitter.run m fs res).result = Except.ok (MCFitter.RunRes.fitted par)) :
    (MCFitter.run m fs res).pdf = MCFitter.fixTails par m.pdf.params := by
  rcases h3 : m.out_dir with _ | odir
  · simp only [MCFitter.run, h1, h2, h3] at hres
    exact absurd hres (by simp)
  · rcases h4 : fs.lookup (odir ++ "/" ++ m.name ++ ".json") with _ | p
    · rcases h5 : getData (some f) m.pdf.obs_name r with ⟨eg, evs⟩
      rcases eg with e | d
      · simp only [MCFitter.run, h1, h2, h3, h4, h5] at hres
        exact absurd hres (by simp)
      · by_cases h6 : f.error_method = "minuit_hesse"
        · rw [run_fresh_ok m fs res f r odir d evs h1 h2 h3 h4 h5 h6] at hres ⊢
          simp only [Except.ok.injEq, MCFitter.RunRes.fitted.injEq] at hres
          rw [← hres]
        · rw [run_fresh_bad m fs res f r odir d evs h1 h2 h3 h4 h5 h6] at hres
          exact absurd hres (by simp)
    · rw [run_cached m fs res f r odir p h1 h2 h3 h4] at hres ⊢
      simp only [Except.ok.injEq, MCFitter.RunRes.fitted.injEq] at hres
      rw [← hres]

end RxCalib

/-- C1: whenever `MCFitter.run` returns a ParameterSet (fitting configuration
present, dataframe present — covering both the fresh-fit and the cached case),
the model parameters it leaves behind are exactly the tail-fixed ones: every
live parameter whose name occurs in the returned ParameterSet and does not end
in `_flt` has its value set to the fitted value and its floating flag set to
false. -/
theorem run_applies_tail_fixing (m : RxCalib.MCFitter.State) (fs : RxCalib.FS)
    (res : RxCalib.FitResult) (f : RxCalib.FitCfg) (r : RxCalib.RDataFrame)
    (par : RxCalib.Parameter)
    (h1 : m.fit_cfg = some f) (h2 : m.rdf = some r)
    (hres : (RxCalib.MCFitter.run m fs res).result =
      Except.ok (RxCalib.MCFitter.RunRes.fitted par)) :
    (RxCalib.MCFitter.run m fs res).pdf =
      RxCalib.MCFitter.fixTails par m.pdf.params ∧
    ∀ (p : RxCalib.Param) (v e : Rat),
      par.lookupPar p.name = some (v, e) →
      RxCalib.strEndsWith p.name "_flt" = false →
      RxCalib.mcFixOne par p = { p with value := v, floating := false } := by
  refine ⟨RxCalib.run_result_fitted_pdf m fs res f r par h1 h2 hres, ?_⟩
  intro p v e hl hf
  simp [RxCalib.mcFixOne, hl, hf]

/-- Witness for C1 in the cached state at a concrete runner. -/
theorem run_applies_tail_fixing_witness :
    (RxCalib.MCFitter.run mOK fsC res0).pdf =
      RxCalib.MCFitter.fixTails parC pdf0.params ∧
    ∀ (p : RxCalib.Param) (v e : Rat),
      parC.lookupPar p.name = some (v, e) →
      RxCalib.strEndsWith p.name "_flt" = false →
      RxCalib.mcFixOne parC p = { p with value := v, floating := false } :=
  run_applies_tail_fixing mOK fsC res0 fitcfgOK rdf0 parC rfl rfl (by decide)

/-- C2: with a fitting configuration and a dataframe, `run()` branches solely
on existence of the record at `out_dir/name.json`.  Fresh state (no record,
supported error method): the dataset is built, the minimizer runs, diagnostics
are rendered when a plotting configuration exists, and the resulting
ParameterSet is persisted at the canonical path.  Cached state (record
present): the stored ParameterSet is returned after a single cache read — no
minimization, no plotting, and the file system is untouched. -/
theorem run_cache_protocol (m : RxCalib.MCFitter.State) (fs : RxCalib.FS)
    (res : RxCalib.FitResult) (f : RxCalib.FitCfg) (r : RxCalib.RDataFrame)
    (odir : String)
    (h1 : m.fit_cfg = some f) (h2 : m.rdf = some r) (h3 : m.out_dir = some odir) :
    (∀ (d : RxCalib.ZData) (evs : List RxCalib.Event),
      fs.lookup (odir ++ "/" ++ m.name ++ ".json") = none →
      RxCalib.getData (some f) m.pdf.obs_name r = (Except.ok d, evs) →
      f.error_method = "minuit_hesse" →
      (RxCalib.MCFitter.run m fs res).result =
        Except.ok (RxCalib.MCFitter.RunRes.fitted (RxCalib.resToParams res)) ∧
      RxCalib.Event.buildData ∈ (RxCalib.MCFitter.run m fs res).events ∧
      RxCalib.Event.minimize ∈ (RxCalib.MCFitter.run m fs res).events ∧
      (m.plt_cfg.isSome = true →
        RxCalib.Event.plotRender (odir ++ "/" ++ m.name ++ ".png") ∈
          (RxCalib.MCFitter.run m fs res).events) ∧
      RxCalib.Event.cacheWrite (odir ++ "/" ++ m.name ++ ".json") ∈
        (RxCalib.MCFitter.run m fs res).events ∧
      (RxCalib.MCFitter.run m fs res).fs.lookup (odir ++ "/" ++ m.name ++ ".json") =
        some (RxCalib.resToParams res)) ∧
    (∀ par : RxCalib.Parameter,
      fs.lookup (odir ++ "/" ++ m.name ++ ".json") = some par →
      (RxCalib.MCFitter.run m fs res).result =
        Except.ok (RxCalib.MCFitter.RunRes.fitted par) ∧
      (RxCalib.MCFitter.run m fs res).events =
        [RxCalib.Event.cacheRead (odir ++ "/" ++ m.name ++ ".json")] ∧
      RxCalib.Event.minimize ∉ (RxCalib.MCFitter.run m fs res).events ∧
      (∀ q, RxCalib.Event.plotRender q ∉ (RxCalib.MCFitter.run m fs res).events) ∧
      (RxCalib.MCFitter.run m fs res).fs = fs) := by
  constructor
  · intro d evs h4 h5 h6
    rw [RxCalib.run_fresh_ok m fs res f r odir d evs h1 h2 h3 h4 h5 h6]
    refine ⟨rfl, ?_, ?_, ?_, ?_, ?_⟩
    · simp only [List.mem_append]
      exact Or.inl (Or.inl (Or.inl (RxCalib.getData_ok_buildData f m.pdf.obs_name r d evs h5)))
    · simp
    · intro hplt
      rcases hpc : m.plt_cfg with _ | pc
      · rw [hpc] at hplt
        simp at hplt
      · simp [RxCalib.MCFitter.plotFit, hpc]
    · simp
    · simp [RxCalib.fsWrite, List.lookup]
  · intro par h4
    rw [RxCalib.run_cached m fs res f r odir par h1 h2 h3 h4]
    refine ⟨rfl, rfl, by simp, ?_, rfl⟩
    intro q
    simp

/-- Witness for C2, exercising the fresh state on an empty cache and the
cached state on a pre-populated cache, at concrete inputs. -/
theorem run_cache_protocol_witness :
    ((RxCalib.MCFitter.run mOK [] res0).result =
        Except.ok (RxCalib.MCFitter.RunRes.fitted (RxCalib.resToParams res0)) ∧
      RxCalib.Event.buildData ∈ (RxCalib.MCFitter.run mOK [] res0).events ∧
      RxCalib.Event.minimize ∈ (RxCalib.MCFitter.run mOK [] res0).events ∧
      (mOK.plt_cfg.isSome = true →
        RxCalib.Event.plotRender ("out" ++ "/" ++ mOK.name ++ ".png") ∈
          (RxCalib.MCFitter.run mOK [] res0).events) ∧
      RxCalib.Event.cacheWrite ("out" ++ "/" ++ mOK.name ++ ".json") ∈
        (RxCalib.MCFitter.run mOK [] res0).events ∧
      (RxCalib.MCFitter.run mOK [] res0).fs.lookup ("out" ++ "/" ++ mOK.name ++ ".json") =
        some (RxCalib.resToParams res0)) ∧
    ((RxCalib.MCFitter.run mOK fsC res0).result =
        Except.ok (RxCalib.MCFitter.RunRes.fitted parC) ∧
      (RxCalib.MCFitter.run mOK fsC res0).events =
        [RxCalib.Event.cacheRead ("out" ++ "/" ++ mOK.name ++ ".json")] ∧
      RxCalib.Event.minimize ∉ (RxCalib.MCFitter.run mOK fsC res0).events ∧
      (∀ q, RxCalib.Event.plotRender q ∉ (RxCalib.MCFitter.run mOK fsC res0).events) ∧
      (RxCalib.MCFitter.run mOK fsC res0).fs = fsC) :=
  ⟨(run_cache_protocol mOK [] res0 fitcfgOK rdf0 "out" rfl rfl rfl).1
      d0 evs0 rfl (by decide) rfl,
   (run_cache_protocol mOK fsC res0 fitcfgOK rdf0 "out" rfl rfl rfl).2
      parC (by decide)⟩

/-- Counterexample to C3 as stated: at a concrete runner configured with
`error_method = "bootstrap"` and an empty cache, the fit does fail with the
unsupported-method error, but the minimizer IS invoked before the rejection —
the `minimize` event occurs in the trace, refuting "no minimization is
performed (the minimizer is never invoked before the rejection)". -/
theorem unsupported_method_counterexample :
    RxCalib.Event.minimize ∈ (RxCalib.MCFitter.run mBad [] res0).events ∧
    (RxCalib.MCFitter.run mBad [] res0).result =
      Except.error (RxCalib.PyError.notImplementedError
        "Method bootstrap not implemented, only minuit_hesse allowed") := by
  decide

/-- C3 (amended): a fit request whose configured error method differs from
`minuit_hesse` fails with the unsupported-method error, but only after the
minimization has been performed — `_fit` invokes the minimizer first and
`_res_to_par` rejects the method afterwards.  No record is written and the
model parameters are untouched.  Both `MCFitter.run` (fresh state) and
`FitComponent.get_pdf` behave this way. -/
theorem unsupported_method_post_minimize :
    (∀ (m : RxCalib.MCFitter.State) (fs : RxCalib.FS) (res : RxCalib.FitResult)
       (f : RxCalib.FitCfg) (r : RxCalib.RDataFrame) (odir : String)
       (d : RxCalib.ZData) (evs : List RxCalib.Event),
       m.fit_cfg = some f → m.rdf = some r → m.out_dir = some odir →
       fs.lookup (odir ++ "/" ++ m.name ++ ".json") = none →
       RxCalib.getData (some f) m.pdf.obs_name r = (Except.ok d, evs) →
       f.error_method ≠ "minuit_hesse" →
       (RxCalib.MCFitter.run m fs res).result =
         Except.error (RxCalib.PyError.notImplementedError
           ("Method " ++ f.error_method ++ " not implemented, only minuit_hesse allowed")) ∧
       RxCalib.Event.minimize ∈ (RxCalib.MCFitter.run m fs res).events ∧
       (RxCalib.MCFitter.run m fs res).fs = fs ∧
       (RxCalib.MCFitter.run m fs res).pdf = m.pdf.params) ∧
    (∀ (c : RxCalib.FitComponent.State) (res : RxCalib.FitResult)
       (f : RxCalib.FitCfg) (r : RxCalib.RDataFrame)
       (d : RxCalib.ZData) (evs : List RxCalib.Event),
       c.fit_cfg = some f → c.rdf = some r →
       RxCalib.getData (some f) c.pdf.obs_name r = (Except.ok d, evs) →
       f.error_method ≠ "minuit_hesse" →
       (RxCalib.FitComponent.getPdf c res).result =
         Except.error (RxCalib.PyError.notImplementedError
           ("Method " ++ f.error_method ++ " not implemented, only minuit_hesse allowed")) ∧
       RxCalib.Event.minimize ∈ (RxCalib.FitComponent.getPdf c res).events ∧
       (RxCalib.FitComponent.getPdf c res).pdf = c.pdf.params) := by
  constructor
  · intro m fs res f r odir d evs h1 h2 h3 h4 h5 h6
    rw [RxCalib.run_fresh_bad m fs res f r odir d evs h1 h2 h3 h4 h5 h6]
    exact ⟨rfl, by simp, rfl, rfl⟩
  · intro c res f r d evs h1 h2 h5 h6
    rw [RxCalib.getPdf_fit_bad c res f r d evs h1 h2 h5 h6]
    exact ⟨rfl, by simp, rfl⟩

/-- Witness for the amended C3 at concrete bootstrap-configured components. -/
theorem unsupported_method_post_minimize_witness :
    ((RxCalib.MCFitter.run mBad [] res0).result =
       Except.error (RxCalib.PyError.notImplementedError
         ("Method " ++ fitcfgBad.error_method ++ " not implemented, only minuit_hesse allowed")) ∧
     RxCalib.Event.minimize ∈ (RxCalib.MCFitter.run mBad [] res0).events ∧
     (RxCalib.MCFitter.run mBad [] res0).fs = [] ∧
     (RxCalib.MCFitter.run mBad [] res0).pdf = mBad.pdf.params) ∧
    ((RxCalib.FitComponent.getPdf cBad res0).result =
       Except.error (RxCalib.PyError.notImplementedError
         ("Method " ++ fitcfgBad.error_method ++ " not implemented, only minuit_hesse allowed")) ∧
     RxCalib.Event.minimize ∈ (RxCalib.FitComponent.getPdf cBad res0).events ∧
     (RxCalib.FitComponent.getPdf cBad res0).pdf = cBad.pdf.params) :=
  ⟨unsupported_method_post_minimize.1 mBad [] res0 fitcfgBad rdf0 "out" d0 evs0
     rfl rfl rfl rfl rfl (by decide),
   unsupported_method_post_minimize.2 cBad res0 fitcfgBad rdf0 d0 evs0
     rfl rfl rfl (by decide)⟩

/-- C4: `FitComponent._fix_tails` sets each matched non-`_flt` model parameter
to the fitted value but leaves its floating flag `True`, and `get_pdf` applies
exactly this after every successful fit, so the matched calibrated shape
parameters end up floating, not fixed. -/
theorem fit_component_leaves_floating :
    (∀ (sig : RxCalib.Parameter) (p : RxCalib.Param) (v e : Rat),
       sig.lookupPar p.name = some (v, e) →
       RxCalib.strEndsWith p.name "_flt" = false →
       RxCalib.fcFixOne sig p = { p with value := v, floating := true }) ∧
    (∀ (c : RxCalib.FitComponent.State) (res : RxCalib.FitResult)
       (f : RxCalib.FitCfg) (r : RxCalib.RDataFrame)
       (d : RxCalib.ZData) (evs : List RxCalib.Event),
       c.fit_cfg = some f → c.rdf = some r →
       RxCalib.getData (some f) c.pdf.obs_name r = (Except.ok d, evs) →
       f.error_method = "minuit_hesse" →
       (RxCalib.FitComponent.getPdf c res).pdf =
         RxCalib.FitComponent.fixTails (RxCalib.resToParams res) c.pdf.params) := by
  constructor
  · intro sig p v e hl hf
    simp [RxCalib.fcFixOne, hl, hf]
  · intro c res f r d evs h1 h2 h5 h6
    exact (RxCalib.getPdf_fit_ok c res f r d evs h1 h2 h5 h6).1

/-- Witness for C4 at a concrete matched shape parameter and component. -/
theorem fit_component_leaves_floating_witness :
    RxCalib.fcFixOne parC ⟨"sg", 1, false⟩ = ⟨"sg", 7, true⟩ ∧
    (RxCalib.FitComponent.getPdf cOK res0).pdf =
      RxCalib.FitComponent.fixTails (RxCalib.resToParams res0) cOK.pdf.params :=
  ⟨fit_component_leaves_floating.1 parC ⟨"sg", 1, false⟩ 7 1 (by decide) (by decide),
   fit_component_leaves_floating.2 cOK res0 fitcfgOK rdf0 d0 evs0 rfl rfl rfl rfl⟩

/-- C8: with a fitting configuration but a null dataframe, both entry points
fail immediately with the data-missing error (`ValueError` "Dataframe not
found"): no event is emitted (no dataset extraction, fit or plot), the file
system is untouched, and the model parameters are unchanged. -/
theorem data_missing_rejected :
    (∀ (m : RxCalib.MCFitter.State) (f : RxCalib.FitCfg) (fs : RxCalib.FS)
       (res : RxCalib.FitResult),
       m.fit_cfg = some f → m.rdf = none →
       RxCalib.MCFitter.run m fs res =
         ⟨[], fs, m.pdf.params,
          Except.error (RxCalib.PyError.valueError "Dataframe not found")⟩) ∧
    (∀ (c : RxCalib.FitComponent.State) (f : RxCalib.FitCfg)
       (res : RxCalib.FitResult),
       c.fit_cfg = some f → c.rdf = none →
       RxCalib.FitComponent.getPdf c res =
         ⟨[], c.pdf.params, c.plt_cfg,
          Except.error (RxCalib.PyError.valueError "Dataframe not found")⟩) :=
  ⟨fun m f fs res h1 h2 => RxCalib.run_nodata m fs res f h1 h2,
   fun c f res h1 h2 => RxCalib.getPdf_nodata c res f h1 h2⟩

/-- Witness for C8 at concrete dataframe-less components. -/
theorem data_missing_rejected_witness :
    RxCalib.MCFitter.run mMiss [] res0 =
      ⟨[], [], pdf0.params,
       Except.error (RxCalib.PyError.valueError "Dataframe not found")⟩ ∧
    RxCalib.FitComponent.getPdf cMiss res0 =
      ⟨[], pdf0.params, none,
       Except.error (RxCalib.PyError.valueError "Dataframe not found")⟩ :=
  ⟨data_missing_rejected.1 mMiss fitcfgOK [] res0 rfl rfl,
   data_missing_rejected.2 cMiss fitcfgOK res0 rfl rfl⟩

/-- C9: without a fitting sub-configuration both entry points are
pass-throughs: no event is emitted (no fit, no dataset access, no plotting, no
cache I/O), the file system is untouched, and the model is returned with every
parameter value and floating flag unchanged. -/
theorem pass_through_unchanged :
    (∀ (m : RxCalib.MCFitter.State) (fs : RxCalib.FS) (res : RxCalib.FitResult),
       m.fit_cfg = none →
       RxCalib.MCFitter.run m fs res =
         ⟨[], fs, m.pdf.params,
          Except.ok (RxCalib.MCFitter.RunRes.passThrough m.pdf.params)⟩) ∧
    (∀ (c : RxCalib.FitComponent.State) (res : RxCalib.FitResult),
       c.fit_cfg = none →
       RxCalib.FitComponent.getPdf c res =
         ⟨[], c.pdf.params, c.plt_cfg, Except.ok c.pdf.params⟩) :=
  ⟨fun m fs res h => RxCalib.run_pass m fs res h,
   fun c res h => RxCalib.getPdf_pass c res h⟩

/-- Witness for C9 at concrete fit-configuration-less components. -/
theorem pass_through_unchanged_witness :
    RxCalib.MCFitter.run mPass fsC res0 =
      ⟨[], fsC, pdf0.params,
       Except.ok (RxCalib.MCFitter.RunRes.passThrough pdf0.params)⟩ ∧
    RxCalib.FitComponent.getPdf cPass res0 =
      ⟨[], pdf0.params, none, Except.ok pdf0.params⟩ :=
  ⟨pass_through_unchanged.1 mPass fsC res0 rfl,
   pass_through_unchanged.2 cPass res0 rfl⟩

/-- C7: the weighted-dataset builder uses an existing weight column unmodified
(returning the source unchanged), and when the column is absent it synthesizes
a constant column of ones — one entry per row, hence length-matched to every
observable column of a well-formed source — logs the substitution, leaves the
other columns untouched, and does not fail. -/
theorem add_weights_default (rdf : RxCalib.RDataFrame) (w : String) :
    (w ∈ rdf.colNames →
      RxCalib.addWeights rdf w = (rdf, [RxCalib.Event.logWgtFound])) ∧
    (w ∉ rdf.colNames →
      (RxCalib.addWeights rdf w).fst.getCol w =
        some (List.replicate rdf.nrows 1) ∧
      (RxCalib.addWeights rdf w).snd = [RxCalib.Event.logWgtDefined] ∧
      (∀ n, n ≠ w →
        (RxCalib.addWeights rdf w).fst.getCol n = rdf.getCol n) ∧
      (RxCalib.addWeights rdf w).fst.nrows = rdf.nrows ∧
      (rdf.wf → ∀ obs arr, rdf.getCol obs = some arr →
        (List.replicate rdf.nrows (1 : Rat)).length = arr.length)) := by
  constructor
  · intro h
    simp [RxCalib.addWeights, h]
  · intro h
    have hw : rdf.cols.lookup w = none :=
      RxCalib.lookup_none_of_not_mem_keys w rdf.cols
        (by simpa [RxCalib.RDataFrame.colNames] using h)
    refine ⟨?_, ?_, ?_, ?_, ?_⟩
    · simp only [RxCalib.addWeights, if_neg h, RxCalib.RDataFrame.getCol,
        RxCalib.RDataFrame.defineConst]
      rw [RxCalib.lookup_append_of_none _ _ _ hw]
      simp [List.lookup]
    · simp [RxCalib.addWeights, h]
    · intro n hn
      simp only [RxCalib.addWeights, if_neg h, RxCalib.RDataFrame.getCol,
        RxCalib.RDataFrame.defineConst]
      rcases hc : rdf.cols.lookup n with _ | v
      · rw [RxCalib.lookup_append_of_none _ _ _ hc]
        have hb : (n == w) = false := beq_eq_false_iff_ne.mpr hn
        simp [List.lookup, hb]
      · exact RxCalib.lookup_append_of_some _ _ _ _ hc
    · simp [RxCalib.addWeights, h, RxCalib.RDataFrame.defineConst]
    · intro hwf obs arr hga
      rw [List.length_replicate, hwf obs arr hga]

/-- Witness for C7: a source already carrying the weight column and a source
lacking it, at concrete inputs. -/
theorem add_weights_default_witness :
    RxCalib.addWeights rdf1 "weights" = (rdf1, [RxCalib.Event.logWgtFound]) ∧
    ((RxCalib.addWeights rdf0 "weights").fst.getCol "weights" =
        some (List.replicate rdf0.nrows 1) ∧
      (RxCalib.addWeights rdf0 "weights").snd = [RxCalib.Event.logWgtDefined] ∧
      (∀ n, n ≠ "weights" →
        (RxCalib.addWeights rdf0 "weights").fst.getCol n = rdf0.getCol n) ∧
      (RxCalib.addWeights rdf0 "weights").fst.nrows = rdf0.nrows ∧
      (rdf0.wf → ∀ obs arr, rdf0.getCol obs = some arr →
        (List.replicate rdf0.nrows (1 : Rat)).length = arr.length)) :=
  ⟨(add_weights_default rdf1 "weights").1 (by decide),
   (add_weights_default rdf0 "weights").2 (by decide)⟩

/-- Counterexample to C10 as stated: at the concrete configuration holding a
name and a fitting sub-configuration but no output-directory entry,
constructing the MCFitter does not succeed — it raises KeyError "out_dir". -/
theorem out_dir_missing_counterexample :
    RxCalib.MCFitter.init cfgNoOut none pdf0 =
      Except.error (RxCalib.PyError.keyError "out_dir") := by
  decide

/-- C10 (amended): the output directory is optional only when the fitting
sub-configuration is absent.  With a name and a fitting sub-configuration but
no out_dir entry, construction fails with KeyError "out_dir"; with a name and
no fitting sub-configuration, construction succeeds without an out_dir. -/
theorem out_dir_required_when_fitting (cfg : RxCalib.CfgDict)
    (rdf : Option RxCalib.RDataFrame) (pdf : RxCalib.PDF) (nm : String)
    (f : RxCalib.FitCfg)
    (hn : cfg.name = some nm) :
    (cfg.fitting = some f → cfg.out_dir = none →
      RxCalib.MCFitter.init cfg rdf pdf =
        Except.error (RxCalib.PyError.keyError "out_dir")) ∧
    (cfg.fitting = none →
      RxCalib.MCFitter.init cfg rdf pdf =
        Except.ok ⟨nm, none, cfg.plotting, none, rdf, pdf⟩) := by
  constructor
  · intro hf ho
    simp [RxCalib.MCFitter.init, hn, hf, ho]
  · intro hf
    simp [RxCalib.MCFitter.init, hn, hf]

/-- Witness for the amended C10 at concrete configurations. -/
theorem out_dir_required_when_fitting_witness :
    RxCalib.MCFitter.init cfgNoOut none pdf0 =
      Except.error (RxCalib.PyError.keyError "out_dir") ∧
    RxCalib.MCFitter.init cfgNoFit none pdf0 =
      Except.ok ⟨"sig", none, none, none, none, pdf0⟩ :=
  ⟨(out_dir_required_when_fitting cfgNoOut none pdf0 "sig" fitcfgOK rfl).1 rfl rfl,
   (out_dir_required_when_fitting cfgNoFit none pdf0 "sig" fitcfgOK rfl).2 rfl⟩
